import Mathlib

/-!
Verification of the result-acquisition core of the exoplanet researcher page
(`js/api.js` / `js/researchers.js`): the poll loop `pollServerResponse`, the
dual-transport `fetchServerResponse`, the JSONP bridge
`fetchServerResponseJSONP`, the best-effort logger `logToGoogleSheets`, the
local estimator `mockInfer` with `validateResponse`, and the
probability-from-percent derivation in `processData`.

JavaScript numbers are modelled as a sum of an exact rational and the
non-finite values; JSON field values as a small tagged type; asynchronous
network results as explicit oracle arguments; and wall-clock time in the poll
loop as an explicit elapsed-milliseconds counter advanced by the per-attempt
fetch duration and the inter-iteration sleep.
-/

namespace ExoPoll

/-- A JavaScript number: an exact finite rational, or one of the
non-finite values NaN, +Infinity, -Infinity.  `typeof x === "number"` is
true for all of these; `Number.isFinite` only for `finite`. -/
inductive JSNum where
  | finite (q : ℚ)
  | nan
  | inf
  | negInf
deriving DecidableEq

/-- A JSON-ish field value as the poll loop can observe it. -/
inductive JSVal where
  | num (n : JSNum)
  | str (s : String)
  | boolv (b : Bool)
  | nullv
deriving DecidableEq

/-- The fields of a server response object that the code reads
(`status`, `procent`, `percent`, `timestamp`); `none` models an absent
field (whose `typeof` is `"undefined"`). -/
structure RespObj where
  status : Option JSVal := none
  procent : Option JSVal := none
  percent : Option JSVal := none
  timestamp : Option JSVal := none
deriving DecidableEq

/-- A parsed response: either a falsy value (`null`/`undefined`), for which
`data && ...` short-circuits, or an object. -/
inductive Resp where
  | nullish
  | obj (o : RespObj)
deriving DecidableEq

/-- Translation of the guard `data && data.status === "pending"`
(researchers.js line 371). -/
def explicitPending : Resp → Bool
  | .nullish => false
  | .obj o =>
    match o.status with
    | some (.str s) => s == "pending"
    | _ => false

/-- Translation of the guard `data && typeof data.procent === "number"`
(researchers.js line 375): the completion test of the poll loop.  Any
JS number passes, NaN and the infinities included; the `percent`
spelling is not consulted. -/
def jsComplete : Resp → Bool
  | .nullish => false
  | .obj o =>
    match o.procent with
    | some (.num _) => true
    | _ => false

/-- Modelled from the spec: the spec's notion of a terminal response — a
finite numeric `percent`-equivalent field, under either the `percent`
spelling or its transliterated synonym `procent` (spec section 3,
ServerStatus invariant, and section 6).  Stated only to compare with the
code's `jsComplete`. -/
def specTerminal : Resp → Bool
  | .nullish => false
  | .obj o =>
    (match o.percent with
     | some (.num (.finite _)) => true
     | _ => false) ||
    (match o.procent with
     | some (.num (.finite _)) => true
     | _ => false)

/-- Outcome of one `fetchServerResponse` attempt as the poll loop sees it:
a resolved value or a thrown error (carrying its message). -/
inductive FetchOutcome where
  | ok (r : Resp)
  | error (e : String)
deriving DecidableEq

/-- A callback invocation observable during one poll iteration:
`onPending()` or `onError(e)`. -/
inductive PollEvent where
  | pending
  | error (e : String)
deriving DecidableEq

/-- How the poll loop ends: `return data` (success) or the thrown
`Error("Polling timed out (no server response within timeout).")`. -/
inductive PollExit where
  | success (r : Resp)
  | timedOut
deriving DecidableEq

/-- Log of one poll iteration: the elapsed time at which its fetch was
issued, the fetch outcome, and the callback invocations it performed,
in order. -/
structure IterRecord where
  startElapsed : Nat
  outcome : FetchOutcome
  events : List PollEvent
deriving DecidableEq

/-- Result of a whole poll-loop run: the exit, the per-iteration records in
order, and the elapsed time at the final loop-condition check. -/
structure PollOut where
  exit : PollExit
  iters : List IterRecord
  finalElapsed : Nat
deriving DecidableEq

/-- The callback invocations of one iteration, from the body of the
`while` loop (researchers.js lines 368-386): an explicit
`status === "pending"` fires `onPending()`; a `procent`-typed-number
response returns; otherwise the trailing `onPending()` fires; a thrown
fetch error fires `onError(err)`. -/
def eventsOf : FetchOutcome → List PollEvent
  | .error e => [.error e]
  | .ok data =>
    (if explicitPending data then [PollEvent.pending] else []) ++
      (if jsComplete data then [] else [PollEvent.pending])

/-- Prepend one iteration's record to a loop continuation's result. -/
def consIter (r : IterRecord) (x : PollOut) : PollOut :=
  ⟨x.exit, r :: x.iters, x.finalElapsed⟩

/-- The `while (Date.now() - start < timeout)` loop of `pollServerResponse`
(researchers.js lines 367-391), with `I` the normalized interval, `T` the
normalized timeout, `f k` the outcome of the `k`-th fetch attempt, `d k`
the wall-clock duration of that attempt, `i` the next attempt index and
`elapsed` the current `Date.now() - start`.  Each iteration advances
elapsed time by the fetch duration plus the `setTimeout(interval)` sleep.
The fuel argument only bounds recursion; with fuel `T + 1` and `I ≥ 1` it
never runs out before the loop condition fails. -/
def pollAux (I T : Nat) (f : Nat → FetchOutcome) (d : Nat → Nat) :
    Nat → Nat → Nat → PollOut
  | 0, _, elapsed => ⟨.timedOut, [], elapsed⟩
  | fuel+1, i, elapsed =>
    if elapsed < T then
      match f i with
      | .ok data =>
        if jsComplete data then
          ⟨.success data, [⟨elapsed, .ok data, eventsOf (.ok data)⟩], elapsed⟩
        else
          consIter ⟨elapsed, .ok data, eventsOf (.ok data)⟩
            (pollAux I T f d fuel (i+1) (elapsed + d i + I))
      | .error e =>
        consIter ⟨elapsed, .error e, eventsOf (.error e)⟩
          (pollAux I T f d fuel (i+1) (elapsed + d i + I))
    else ⟨.timedOut, [], elapsed⟩

/-- Poll default `DEFAULT_POLL_INTERVAL_MS` (researchers.js line 32). -/
def DEFAULT_POLL_INTERVAL_MS : Nat := 10000

/-- Poll default `DEFAULT_POLL_TIMEOUT_MS` (researchers.js line 33). -/
def DEFAULT_POLL_TIMEOUT_MS : Nat := 120000

/-- JavaScript `options.x || dflt` on a millisecond count: an absent field
and the falsy value `0` both yield the default. -/
def jsOrNat (v : Option Nat) (dflt : Nat) : Nat :=
  match v with
  | none => dflt
  | some n => if n = 0 then dflt else n

/-- Translation of `pollServerResponse(object_id, options)`
(researchers.js lines 357-392): normalizes `options.interval` and
`options.timeout` with `||` against the defaults, then runs the polling
loop from elapsed time 0. -/
def pollServerResponse (optInterval optTimeout : Option Nat)
    (f : Nat → FetchOutcome) (d : Nat → Nat) : PollOut :=
  let interval := jsOrNat optInterval DEFAULT_POLL_INTERVAL_MS
  let timeout := jsOrNat optTimeout DEFAULT_POLL_TIMEOUT_MS
  pollAux interval timeout f d (timeout + 1) 0 0

/-- Count of `onPending` invocations in one iteration's event list. -/
def pendingEvents (evs : List PollEvent) : Nat :=
  (evs.filter (fun e => e == PollEvent.pending)).length

/-- Total count of `onPending` invocations across a run. -/
def pendingTotal (l : List IterRecord) : Nat :=
  (l.map (fun r => pendingEvents r.events)).sum

/-- Whether a fetch outcome makes its iteration the successful exit. -/
def oSuccess : FetchOutcome → Bool
  | .ok r => jsComplete r
  | .error _ => false

/-- Ceiling division on naturals, `⌈a / b⌉`. -/
def ceilDivNat (a b : Nat) : Nat := (a + b - 1) / b

/-! ### The JSONP bridge `fetchServerResponseJSONP` (researchers.js 297-343)

By the time the synchronous body of the promise executor finishes, the
timeout timer is armed, `window[callbackName]` is registered, and the
script element is appended; only then can the event loop deliver any of
the three competing events.  The bridge is therefore modelled as a state
machine started from that fully-armed state, processing an arbitrary
finite sequence of delivered events. -/

/-- How the bridge promise settled. -/
inductive Settlement where
  | resolved (payload : Resp)
  | rejectedTimeout
  | rejectedLoadError
deriving DecidableEq

/-- Bridge resources and promise state: whether the injected script is
still in the DOM, whether `window[callbackName]` is still registered,
whether the timeout timer is still armed, and the settlement (if any)
of the promise. -/
structure BridgeState where
  scriptAttached : Bool
  callbackRegistered : Bool
  timerArmed : Bool
  settled : Option Settlement
deriving DecidableEq

/-- Translation of the `cleanup` closure (researchers.js lines 307-315):
removes the script from its parent if attached, deletes
`window[callbackName]`, and clears the timeout timer.  Each part is a
no-op when the resource is already gone. -/
def cleanup (st : BridgeState) : BridgeState :=
  { st with scriptAttached := false, callbackRegistered := false,
            timerArmed := false }

/-- Promise settlement: the first `resolve`/`reject` wins and later ones
are no-ops (JS promise semantics, on which the executor relies). -/
def settle (st : BridgeState) (s : Settlement) : BridgeState :=
  if st.settled.isSome then st else { st with settled := some s }

/-- An event the runtime may deliver to the bridge: the remote script
invoking `window[callbackName](data)`, the timeout timer firing, or the
script element's error event. -/
inductive BridgeEvent where
  | remoteInvoke (payload : Resp)
  | timerFire
  | scriptError
deriving DecidableEq

/-- Whether an event's handler body would run at this state: the remote
invocation finds a registered callback, the timer callback runs only
while the timer is armed (`clearTimeout` cancels it), and the error
event reaches a script element still in the DOM. -/
def effective (st : BridgeState) : BridgeEvent → Bool
  | .remoteInvoke _ => st.callbackRegistered
  | .timerFire => st.timerArmed
  | .scriptError => st.scriptAttached

/-- One delivered event.  Each handler body (researchers.js lines 318-321,
323-326, 336-339) runs `cleanup()` and then settles the promise. -/
def bridgeStep (st : BridgeState) : BridgeEvent → BridgeState
  | .remoteInvoke p =>
    if st.callbackRegistered then settle (cleanup st) (.resolved p) else st
  | .timerFire =>
    if st.timerArmed then settle (cleanup st) .rejectedTimeout else st
  | .scriptError =>
    if st.scriptAttached then settle (cleanup st) .rejectedLoadError else st

/-- Process a finite sequence of delivered events. -/
def bridgeRun (st : BridgeState) : List BridgeEvent → BridgeState
  | [] => st
  | e :: es => bridgeRun (bridgeStep st e) es

/-- The state right after the executor's synchronous body: script
appended, callback registered, timer armed, promise pending. -/
def bridgeInit : BridgeState := ⟨true, true, true, none⟩

/-- The quiescent state after a terminal event settled the promise
with `s`: every resource torn down. -/
def settledState (s : Settlement) : BridgeState := ⟨false, false, false, some s⟩

/-- Number of events in a sequence whose handler body actually runs
(reaches its `resolve`/`reject` call). -/
def firesCount (st : BridgeState) : List BridgeEvent → Nat
  | [] => 0
  | e :: es =>
    (if effective st e then 1 else 0) + firesCount (bridgeStep st e) es

/-! ### The response fetcher `fetchServerResponse` (researchers.js 253-290)
and the logger `logToGoogleSheets` (researchers.js 180-237) -/

/-- Whether `pat` starts the character list `s`. -/
def charsStart : List Char → List Char → Bool
  | _, [] => true
  | [], _ :: _ => false
  | c :: cs, p :: ps => c == p && charsStart cs ps

/-- Whether `pat` occurs contiguously inside `s`. -/
def charsHave (pat : List Char) : List Char → Bool
  | [] => charsStart [] pat
  | c :: t => charsStart (c :: t) pat || charsHave pat t

/-- JavaScript `haystack.includes(needle)` on strings. -/
def strIncludes (s pat : String) : Bool := charsHave pat.data s.data

/-- The configured GET endpoint `GOOGLE_SHEETS_GET_ENDPOINT`
(researchers.js lines 28-29). -/
def GOOGLE_SHEETS_GET_ENDPOINT : String :=
  "https://script.google.com/macros/library/d/1HZQfrnjnn_OLjBzkCXK8Tp6LIusSa6gJf4ulKMftbIs8Uypy-JfgPTmy/4"

/-- The configured POST endpoint `GOOGLE_SHEETS_ENDPOINT`
(researchers.js lines 24-25). -/
def GOOGLE_SHEETS_ENDPOINT : String :=
  "https://script.google.com/macros/s/AKfycbzBhtoJ1pvYZJmlcGBwc5Z3YUk2kE7euqbP6cZyFxDBVEG5RYLlA8M9gGDczUVKfNRY/exec"

/-- The configuration guard of `fetchServerResponse` (researchers.js
lines 255-260): endpoint falsy (the empty string) or containing one of
the known GET placeholder markers. -/
def misconfiguredGet (ep : String) : Bool :=
  (ep == "") || strIncludes ep "YOUR_GET_DEPLOY_ID" ||
    strIncludes ep "YOUR_GET_DEPLOY_ID_HERE" ||
    strIncludes ep "YOUR_GET_DEPLOY_URL"

/-- The configuration guard of `logToGoogleSheets` (researchers.js lines
182-187): endpoint falsy or containing one of the known POST placeholder
markers. -/
def misconfiguredPost (ep : String) : Bool :=
  (ep == "") || strIncludes ep "YOUR_POST_DEPLOY_ID" ||
    strIncludes ep "YOUR_POST_DEPLOY_ID_HERE" ||
    strIncludes ep "YOUR_POST_DEPLOY_URL"

/-- The message of the `ConfigurationError` thrown by
`fetchServerResponse` (researchers.js line 261). -/
def configErrorMsg : String := "GOOGLE_SHEETS_GET_ENDPOINT not configured in api.js."

instance : DecidableEq (Except String Resp) := fun x y =>
  match x, y with
  | .ok a, .ok b =>
    if h : a = b then isTrue (by rw [h]) else isFalse (by simp [h])
  | .error a, .error b =>
    if h : a = b then isTrue (by rw [h]) else isFalse (by simp [h])
  | .ok _, .error _ => isFalse (by simp)
  | .error _, .ok _ => isFalse (by simp)

/-- What one call to `fetchServerResponse` did: its result (resolved
response or thrown error message) and which of the two transports were
attempted. -/
structure FetchTrace where
  result : Except String Resp
  bridgeAttempted : Bool
  directAttempted : Bool
deriving DecidableEq

/-- Translation of `fetchServerResponse(object_id)` (researchers.js lines
253-290): after the configuration guard, try the JSONP bridge; on any
bridge rejection fall back to the direct `fetch()`, whose own failure
(non-ok status or network error) is what propagates to the caller.
`bridge` and `direct` are the outcomes the two transports would produce
on this call. -/
def fetchServerResponse (endpoint : String)
    (bridge direct : Except String Resp) : FetchTrace :=
  if misconfiguredGet endpoint then ⟨.error configErrorMsg, false, false⟩
  else
    match bridge with
    | .ok data => ⟨.ok data, true, false⟩
    | .error _ =>
      match direct with
      | .ok data => ⟨.ok data, true, true⟩
      | .error e => ⟨.error e, true, true⟩

/-- Hex digits for percent-encoding. -/
def hexDigits : List Char :=
  ['0', '1', '2', '3', '4', '5', '6', '7', '8', '9', 'A', 'B', 'C', 'D', 'E', 'F']

/-- Characters `encodeURIComponent` leaves unescaped. -/
def isUnreservedURIChar (c : Char) : Bool :=
  c.isAlphanum || "-_.!~*'()".contains c

/-- Percent-encode one character as the `%XX` codes of its UTF-8 bytes. -/
def percentEncodeChar (c : Char) : String :=
  String.join (((String.mk [c]).toUTF8.toList).map (fun b =>
    "%" ++ String.mk [hexDigits.getD (b.toNat / 16) '0',
                      hexDigits.getD (b.toNat % 16) '0']))

/-- JavaScript `encodeURIComponent`. -/
def encodeURIComponent (s : String) : String :=
  String.join (s.data.map (fun c =>
    if isUnreservedURIChar c then String.mk [c] else percentEncodeChar c))

/-- The URL the JSONP bridge loads (researchers.js lines 328-332):
separator chosen by whether the endpoint already has a query string, then
`object_id`, `callback` and the `ts` cache-buster. -/
def jsonpUrl (endpoint object_id cb : String) (ts : Nat) : String :=
  endpoint ++ (if strIncludes endpoint "?" then "&" else "?") ++ "object_id=" ++
    encodeURIComponent object_id ++ "&callback=" ++ cb ++ "&ts=" ++ toString ts

/-- The URL of the direct `fetch()` fallback (researchers.js lines
274-276): `object_id` and `ts`, no `callback` parameter. -/
def directUrl (endpoint object_id : String) (ts : Nat) : String :=
  endpoint ++ "?object_id=" ++ encodeURIComponent object_id ++ "&ts=" ++ toString ts

/-- Outcome of one `fetch()` POST attempt as `logToGoogleSheets`
observes it: a resolved response with a status code, or a throw. -/
inductive PostAttempt where
  | status (code : Nat)
  | thrown
deriving DecidableEq

/-- The `Response.ok` predicate: status in the range 200-299. -/
def respOk (code : Nat) : Bool := 200 ≤ code && code < 300

/-- Translation of `logToGoogleSheets(formData)` (researchers.js lines
180-237): configuration guard returns `false` with no network call;
otherwise a normal POST, counted as success if `resp.ok`; otherwise a
no-cors POST, counted as success once dispatched without a throw.
Returns the boolean result and how many network calls were made. -/
def logToGoogleSheets (endpoint : String) (post1 post2 : PostAttempt) :
    Bool × Nat :=
  if misconfiguredPost endpoint then (false, 0)
  else
    match post1 with
    | .status code =>
      if respOk code then (true, 1)
      else
        match post2 with
        | .status _ => (true, 2)
        | .thrown => (false, 2)
    | .thrown =>
      match post2 with
      | .status _ => (true, 2)
      | .thrown => (false, 2)

/-! ### The completed-response handling of `processData`
(src/unnamed/part_000 lines 483-494) and the local estimator
`mockInfer` with `validateResponse` (researchers.js 37-78, 167-176) -/

/-- Translation of
`Math.max(0, Math.min(1, serverResp.procent / 100))`
(src/unnamed/part_000 line 484): the probability derived from a
completed response's percent value. -/
def processDataProbability (procent : ℚ) : ℚ := max 0 (min 1 (procent / 100))

/-- Modelled from the spec: `clamp(x, lo, hi)` as the spec's testable
property states it (spec section 8, first bullet).  Stated only to
compare with the code's `processDataProbability`. -/
def clampSpec (x lo hi : ℚ) : ℚ := max lo (min hi x)

/-- JavaScript `v || dflt` on a number: NaN (modelled as `none`) and `0`
are falsy and yield the default. -/
def jsOrQ (v : Option ℚ) (dflt : ℚ) : ℚ :=
  match v with
  | none => dflt
  | some q => if q = 0 then dflt else q

/-- JavaScript `Math.round`: round half toward positive infinity. -/
def jsRound (x : ℚ) : ℤ := ⌊x + 1/2⌋

/-- The submitted form mapping as `mockInfer` consumes it.  The `snr` and
`transit_depth` fields are represented by the value `parseFloat` returns
on the submitted string: `none` models NaN (a missing or non-numeric
field), `some q` a numeric parse.  The remaining fields are only echoed
into comment strings. -/
structure MockFormData where
  object_id : String := ""
  snr : Option ℚ := none
  transit_depth : Option ℚ := none
  orbital_period : String := ""
  transit_duration : String := ""
  planet_radius : String := ""
  eq_temperature : String := ""
  stellar_mass : String := ""
  stellar_temp : String := ""
deriving DecidableEq

/-- Display form of a parsed numeric field for the comment strings. -/
def showParsed (v : Option ℚ) : String :=
  match v with
  | none => "NaN"
  | some q => toString q

/-- The shape `mockInfer` returns (researchers.js lines 73-77). -/
structure MockResult where
  probability : ℚ
  summary : String
  data_comments : List String
deriving DecidableEq

/-- Translation of `mockInfer(formData)` (researchers.js lines 37-78),
with the randomized delay dropped (it does not affect the returned
value): defaults `snr` to 10 and `transit_depth` to 5000 through `||`,
caps the two factors at 1, combines them into a base probability,
rounds to three decimals, and derives the confidence wording. -/
def mockInfer (formData : MockFormData) : MockResult :=
  let snr := jsOrQ formData.snr 10
  let transitDepth := jsOrQ formData.transit_depth 5000
  let snrFactor := min (snr / 20) 1
  let depthFactor := min (transitDepth / 10000) 1
  let baseProbability := 3/10 + snrFactor * (3/10) + depthFactor * (3/10)
  let probability := (jsRound (baseProbability * 1000) : ℚ) / 1000
  let confidenceLevel :=
    if probability ≥ 3/4 then "High likelihood"
    else if probability ≥ 1/2 then "Moderate likelihood"
    else "Low likelihood"
  let signalStrength :=
    if probability ≥ 3/4 then "Strong"
    else if probability ≥ 1/2 then "Moderate"
    else "Weak"
  { probability := probability,
    summary := confidenceLevel ++ " of confirmed exoplanet based on " ++
      signalStrength.toLower ++
      " transit signature and favorable orbital parameters.",
    data_comments := [
      signalStrength ++ " transit signal detected for " ++ formData.object_id,
      "Signal-to-noise ratio: " ++ showParsed formData.snr,
      "Transit depth: " ++ showParsed formData.transit_depth ++ " ppm",
      "Orbital period: " ++ formData.orbital_period ++ " days",
      "Transit duration: " ++ formData.transit_duration ++ " hours",
      "Planet radius: " ++ formData.planet_radius,
      "Equilibrium temperature: " ++ formData.eq_temperature ++ " K",
      "Stellar properties: " ++ formData.stellar_mass ++ ", " ++
        formData.stellar_temp ++ " K"] }

/-- Translation of `validateResponse(data)` (researchers.js lines
167-176) on a `MockResult`: in this typed embedding the truthiness,
`typeof` and `Array.isArray` checks hold by construction, so the
residual content is the probability range check `0 ≤ p ≤ 1`. -/
def validateResponse (data : MockResult) : Bool :=
  decide (0 ≤ data.probability) && decide (data.probability ≤ 1)

/-! ### Concrete inputs used in counterexamples and witnesses -/

/-- A response carrying only an explicit pending marker,
`{status: "pending"}`. -/
def pendingOnlyResp : Resp := .obj { status := some (.str "pending") }

/-- A completed response object under the `procent` spelling,
`{procent: 87}`. -/
def procentIntObj : RespObj := { procent := some (.num (.finite 87)) }

/-- The completed response `{procent: 87}`. -/
def procentIntResp : Resp := .obj procentIntObj

/-- A response carrying a finite numeric terminal value only under the
`percent` spelling, `{percent: 87}`. -/
def percentOnlyResp : Resp := .obj { percent := some (.num (.finite 87)) }

/-- A response whose `procent` field is the JS number NaN. -/
def procentNaNResp : Resp := .obj { procent := some (.num .nan) }

/-- A form mapping whose `snr` string parses to the negative number
-1000 (for example the submitted text "-1000"). -/
def negSnrInput : MockFormData :=
  { object_id := "TOI-700", snr := some (-1000), transit_depth := some 5000 }

/-! ## Lemmas about the JSONP bridge state machine -/

lemma bridgeStep_settledState (s : Settlement) (e : BridgeEvent) :
    bridgeStep (settledState s) e = settledState s := by
  cases e <;> rfl

lemma bridgeRun_settledState (s : Settlement) (tr : List BridgeEvent) :
    bridgeRun (settledState s) tr = settledState s := by
  induction tr with
  | nil => rfl
  | cons e es ih => rw [bridgeRun, bridgeStep_settledState]; exact ih

lemma effective_settledState (s : Settlement) (e : BridgeEvent) :
    effective (settledState s) e = false := by
  cases e <;> rfl

lemma firesCount_settledState (s : Settlement) (tr : List BridgeEvent) :
    firesCount (settledState s) tr = 0 := by
  induction tr with
  | nil => rfl
  | cons e es ih =>
    rw [firesCount, bridgeStep_settledState, effective_settledState]
    simpa using ih

lemma effective_bridgeInit (e : BridgeEvent) : effective bridgeInit e = true := by
  cases e <;> rfl

lemma bridgeStep_bridgeInit (e : BridgeEvent) :
    ∃ s, bridgeStep bridgeInit e = settledState s := by
  cases e with
  | remoteInvoke p => exact ⟨.resolved p, rfl⟩
  | timerFire => exact ⟨.rejectedTimeout, rfl⟩
  | scriptError => exact ⟨.rejectedLoadError, rfl⟩

lemma bridgeRun_bridgeInit_cons (e : BridgeEvent) (es : List BridgeEvent) :
    ∃ s, bridgeRun bridgeInit (e :: es) = settledState s := by
  obtain ⟨s, hs⟩ := bridgeStep_bridgeInit e
  exact ⟨s, by rw [bridgeRun, hs, bridgeRun_settledState]⟩

/-- Claim C2: per invocation of the cross-origin bridge, exactly one of
resolve, timeout rejection and script-load-error rejection fires — at
most one handler body ever reaches its `resolve`/`reject`, and the first
delivered event always does, in particular in any run in which the armed
timer eventually fires; on that first terminal event the window
callback, the timer and the injected script are all torn down; and a
second `cleanup()` is a no-op. -/
theorem claim2_bridge_settles_exactly_once :
    (∀ tr : List BridgeEvent, firesCount bridgeInit tr ≤ 1) ∧
    (∀ tr : List BridgeEvent, tr ≠ [] → firesCount bridgeInit tr = 1) ∧
    (∀ tr : List BridgeEvent, BridgeEvent.timerFire ∈ tr →
      ((bridgeRun bridgeInit tr).settled).isSome = true) ∧
    (∀ tr : List BridgeEvent, ((bridgeRun bridgeInit tr).settled).isSome = true →
      (bridgeRun bridgeInit tr).scriptAttached = false ∧
      (bridgeRun bridgeInit tr).callbackRegistered = false ∧
      (bridgeRun bridgeInit tr).timerArmed = false) ∧
    (∀ st : BridgeState, cleanup (cleanup st) = cleanup st) := by
  have hone : ∀ (e : BridgeEvent) (es : List BridgeEvent),
      firesCount bridgeInit (e :: es) = 1 := by
    intro e es
    obtain ⟨s, hs⟩ := bridgeStep_bridgeInit e
    rw [firesCount, hs, firesCount_settledState, effective_bridgeInit]
    rfl
  refine ⟨?_, ?_, ?_, ?_, fun st => rfl⟩
  · intro tr
    cases tr with
    | nil => exact Nat.zero_le 1
    | cons e es => exact (hone e es).le
  · intro tr htr
    cases tr with
    | nil => exact absurd rfl htr
    | cons e es => exact hone e es
  · intro tr hmem
    cases tr with
    | nil => simp at hmem
    | cons e es =>
      obtain ⟨s, hs⟩ := bridgeRun_bridgeInit_cons e es
      rw [hs]; rfl
  · intro tr hset
    cases tr with
    | nil => simp [bridgeRun, bridgeInit] at hset
    | cons e es =>
      obtain ⟨s, hs⟩ := bridgeRun_bridgeInit_cons e es
      rw [hs]; exact ⟨rfl, rfl, rfl⟩

/-- Witness for C2 at the concrete trace where the timeout fires first
and the remote callback arrives one tick later. -/
theorem claim2_witness :
    firesCount bridgeInit [BridgeEvent.timerFire, BridgeEvent.remoteInvoke .nullish] ≤ 1 ∧
    firesCount bridgeInit [BridgeEvent.timerFire, BridgeEvent.remoteInvoke .nullish] = 1 ∧
    ((bridgeRun bridgeInit [BridgeEvent.timerFire, BridgeEvent.remoteInvoke .nullish]).settled).isSome = true ∧
    (bridgeRun bridgeInit [BridgeEvent.timerFire, BridgeEvent.remoteInvoke .nullish]).timerArmed = false ∧
    cleanup (cleanup bridgeInit) = cleanup bridgeInit := by
  obtain ⟨h1, h2, h3, h4, h5⟩ := claim2_bridge_settles_exactly_once
  refine ⟨h1 _, h2 _ (by decide), h3 _ (by decide), ?_, h5 bridgeInit⟩
  exact (h4 _ (h3 _ (by decide))).2.2

/-! ## Claims C7 and C9 -/

/-- Claim C7: the probability derived in `processData` from a completed
response's percent value `p` equals `clamp(p/100, 0, 1)`; it always lies
in `[0, 1]`; `p = 130` yields probability 1 and `p = -10` yields
probability 0. -/
theorem claim7_probability_clamp :
    (∀ p : ℚ, processDataProbability p = clampSpec (p / 100) 0 1) ∧
    (∀ p : ℚ, 0 ≤ processDataProbability p ∧ processDataProbability p ≤ 1) ∧
    processDataProbability 130 = 1 ∧ processDataProbability (-10) = 0 := by
  refine ⟨fun p => rfl, fun p => ⟨le_max_left _ _, max_le (by norm_num) (min_le_left _ _)⟩,
    ?_, ?_⟩
  · rw [processDataProbability]
    norm_num
  · rw [processDataProbability]
    rw [min_eq_right (by norm_num), max_eq_left (by norm_num)]

/-- Claim C9: a zero (or absent, hence falsy) `options.interval` or
`options.timeout` passed to `pollServerResponse` is silently replaced by
the defaults 10000 ms and 120000 ms, so the effective interval and
timeout of a poll run are always positive. -/
theorem claim9_zero_options_use_defaults :
    (∀ f d, pollServerResponse (some 0) (some 0) f d =
      pollServerResponse none none f d) ∧
    (∀ f d, pollServerResponse none none f d =
      pollServerResponse (some DEFAULT_POLL_INTERVAL_MS)
        (some DEFAULT_POLL_TIMEOUT_MS) f d) ∧
    (∀ o, 0 < jsOrNat o DEFAULT_POLL_INTERVAL_MS) ∧
    (∀ o, 0 < jsOrNat o DEFAULT_POLL_TIMEOUT_MS) := by
  refine ⟨fun f d => rfl, fun f d => rfl, ?_, ?_⟩ <;>
    · intro o
      match o with
      | none => decide
      | some n =>
        rw [jsOrNat]
        split
        · decide
        · omega

/-! ## Claims C8 and C3 -/

/-- Claim C8: with an empty endpoint or one containing a known
placeholder marker, `fetchServerResponse` fails immediately with the
configuration error and `logToGoogleSheets` returns `false` immediately,
and neither attempts any network call. -/
theorem claim8_placeholder_short_circuit (epGet epPost : String)
    (hg : epGet = "" ∨ strIncludes epGet "YOUR_GET_DEPLOY_ID" = true ∨
      strIncludes epGet "YOUR_GET_DEPLOY_ID_HERE" = true ∨
      strIncludes epGet "YOUR_GET_DEPLOY_URL" = true)
    (hp : epPost = "" ∨ strIncludes epPost "YOUR_POST_DEPLOY_ID" = true ∨
      strIncludes epPost "YOUR_POST_DEPLOY_ID_HERE" = true ∨
      strIncludes epPost "YOUR_POST_DEPLOY_URL" = true) :
    (∀ bridge direct, fetchServerResponse epGet bridge direct =
      ⟨.error configErrorMsg, false, false⟩) ∧
    (∀ post1 post2, logToGoogleSheets epPost post1 post2 = (false, 0)) := by
  have hg2 : misconfiguredGet epGet = true := by
    rcases hg with h | h | h | h <;> simp [misconfiguredGet, h]
  have hp2 : misconfiguredPost epPost = true := by
    rcases hp with h | h | h | h <;> simp [misconfiguredPost, h]
  constructor
  · intro bridge direct
    rw [fetchServerResponse.eq_def, hg2]
    rfl
  · intro post1 post2
    rw [logToGoogleSheets.eq_def, hp2]
    rfl

/-- Witness for C8 at the empty endpoint. -/
theorem claim8_witness :
    fetchServerResponse "" (.ok Resp.nullish) (.ok Resp.nullish) =
      ⟨.error configErrorMsg, false, false⟩ ∧
    logToGoogleSheets "" PostAttempt.thrown PostAttempt.thrown = (false, 0) := by
  obtain ⟨h1, h2⟩ :=
    claim8_placeholder_short_circuit "" "" (Or.inl rfl) (Or.inl rfl)
  exact ⟨h1 _ _, h2 _ _⟩

/-- Claim C3: with a configured endpoint, `fetchServerResponse` attempts
the JSONP bridge first; on any bridge failure it attempts the direct
transport in the same call; when both fail the propagated error is the
direct transport's; and the direct URL is the bridge URL with the
`callback` parameter removed. -/
theorem claim3_bridge_first_direct_fallback (endpoint object_id cb : String)
    (ts : Nat) (eb ed : String) (direct : Except String Resp) (payload : Resp)
    (hconf : misconfiguredGet endpoint = false)
    (hq : strIncludes endpoint "?" = false) :
    (fetchServerResponse endpoint (.error eb) direct).bridgeAttempted = true ∧
    (fetchServerResponse endpoint (.error eb) direct).directAttempted = true ∧
    (fetchServerResponse endpoint (.ok payload) direct).directAttempted = false ∧
    (fetchServerResponse endpoint (.error eb) (.error ed)).result = .error ed ∧
    (∃ pre post,
      jsonpUrl endpoint object_id cb ts = pre ++ ("&callback=" ++ cb) ++ post ∧
      directUrl endpoint object_id ts = pre ++ post) := by
  refine ⟨?_, ?_, ?_, ?_, ?_⟩
  · rw [fetchServerResponse.eq_def, hconf]
    cases direct <;> rfl
  · rw [fetchServerResponse.eq_def, hconf]
    cases direct <;> rfl
  · rw [fetchServerResponse.eq_def, hconf]
    rfl
  · rw [fetchServerResponse.eq_def, hconf]
    rfl
  · refine ⟨endpoint ++ "?object_id=" ++ encodeURIComponent object_id,
      "&ts=" ++ toString ts, ?_, ?_⟩
    · rw [jsonpUrl, hq]
      have h3 : ∀ rest : String, "?" ++ ("object_id=" ++ rest) =
          "?object_id=" ++ rest := by
        intro rest
        rw [← String.append_assoc]
        exact congrArg (fun x => x ++ rest) (by decide)
      simp only [Bool.false_eq_true, if_false, String.append_assoc, h3]
    · rw [directUrl]
      simp only [String.append_assoc]

/-- Witness for C3 at the configured GET endpoint with a failing bridge
and a failing direct transport. -/
theorem claim3_witness :
    (fetchServerResponse GOOGLE_SHEETS_GET_ENDPOINT (.error "JSONP request timed out")
      (.error "GET failed (500): ")).bridgeAttempted = true ∧
    (fetchServerResponse GOOGLE_SHEETS_GET_ENDPOINT (.error "JSONP request timed out")
      (.error "GET failed (500): ")).directAttempted = true ∧
    (fetchServerResponse GOOGLE_SHEETS_GET_ENDPOINT (.ok Resp.nullish)
      (.error "GET failed (500): ")).directAttempted = false ∧
    (fetchServerResponse GOOGLE_SHEETS_GET_ENDPOINT (.error "JSONP request timed out")
      (.error "GET failed (500): ")).result = .error "GET failed (500): " ∧
    (∃ pre post,
      jsonpUrl GOOGLE_SHEETS_GET_ENDPOINT "TOI-700" "gs_cb_a1b2c3d4" 0 =
        pre ++ ("&callback=" ++ "gs_cb_a1b2c3d4") ++ post ∧
      directUrl GOOGLE_SHEETS_GET_ENDPOINT "TOI-700" 0 = pre ++ post) :=
  claim3_bridge_first_direct_fallback GOOGLE_SHEETS_GET_ENDPOINT "TOI-700"
    "gs_cb_a1b2c3d4" 0 "JSONP request timed out" "GET failed (500): "
    (.error "GET failed (500): ") Resp.nullish (by decide) (by decide)

/-! ## Lemmas about the poll loop -/

lemma jsOrNat_pos (o : Option Nat) (dflt : Nat) (h : 0 < dflt) :
    0 < jsOrNat o dflt := by
  match o with
  | none => exact h
  | some n => rw [jsOrNat]; split <;> omega

lemma pollAux_step_complete (I T : Nat) (f : Nat → FetchOutcome)
    (d : Nat → Nat) (n i e0 : Nat) (data : Resp) (he : e0 < T)
    (hf : f i = .ok data) (hc : jsComplete data = true) :
    pollAux I T f d (n+1) i e0 =
      ⟨.success data, [⟨e0, .ok data, eventsOf (.ok data)⟩], e0⟩ := by
  simp [pollAux, if_pos he, hf, hc]

lemma pollAux_step_pending (I T : Nat) (f : Nat → FetchOutcome)
    (d : Nat → Nat) (n i e0 : Nat) (data : Resp) (he : e0 < T)
    (hf : f i = .ok data) (hc : jsComplete data = false) :
    pollAux I T f d (n+1) i e0 =
      consIter ⟨e0, .ok data, eventsOf (.ok data)⟩
        (pollAux I T f d n (i+1) (e0 + d i + I)) := by
  simp [pollAux, if_pos he, hf, hc]

lemma pollAux_step_error (I T : Nat) (f : Nat → FetchOutcome)
    (d : Nat → Nat) (n i e0 : Nat) (e : String) (he : e0 < T)
    (hf : f i = .error e) :
    pollAux I T f d (n+1) i e0 =
      consIter ⟨e0, .error e, eventsOf (.error e)⟩
        (pollAux I T f d n (i+1) (e0 + d i + I)) := by
  simp [pollAux, if_pos he, hf]

lemma pollAux_step_stop (I T : Nat) (f : Nat → FetchOutcome)
    (d : Nat → Nat) (n i e0 : Nat) (he : ¬ e0 < T) :
    pollAux I T f d (n+1) i e0 = ⟨.timedOut, [], e0⟩ := by
  simp [pollAux, if_neg he]

lemma pollAux_success_complete (I T : Nat) (f : Nat → FetchOutcome)
    (d : Nat → Nat) :
    ∀ fuel i e0 r, (pollAux I T f d fuel i e0).exit = .success r →
      jsComplete r = true := by
  intro fuel
  induction fuel with
  | zero =>
    intro i e0 r h
    rw [pollAux] at h
    exact absurd h (by simp)
  | succ n ih =>
    intro i e0 r h
    by_cases he : e0 < T
    · cases hf : f i with
      | ok data =>
        by_cases hc : jsComplete data
        · rw [pollAux_step_complete I T f d n i e0 data he hf hc] at h
          simp only at h
          cases h
          exact hc
        · rw [pollAux_step_pending I T f d n i e0 data he hf
            (by simpa using hc)] at h
          exact ih (i+1) (e0 + d i + I) r h
      | error e =>
        rw [pollAux_step_error I T f d n i e0 e he hf] at h
        exact ih (i+1) (e0 + d i + I) r h
    · rw [pollAux_step_stop I T f d n i e0 he] at h
      exact absurd h (by simp)

lemma pollAux_nonempty (I T : Nat) (f : Nat → FetchOutcome) (d : Nat → Nat)
    (fuel i e0 : Nat) (hfuel : 1 ≤ fuel) (he : e0 < T) :
    ((pollAux I T f d fuel i e0).iters[0]?).isSome = true := by
  match fuel, hfuel with
  | n+1, _ =>
    cases hf : f i with
    | ok data =>
      by_cases hc : jsComplete data
      · rw [pollAux_step_complete I T f d n i e0 data he hf hc]
        rfl
      · rw [pollAux_step_pending I T f d n i e0 data he hf (by simpa using hc)]
        simp [consIter]
    | error e =>
      rw [pollAux_step_error I T f d n i e0 e he hf]
      simp [consIter]

lemma pollAux_records (I T : Nat) (f : Nat → FetchOutcome) (d : Nat → Nat)
    (hI : 1 ≤ I) :
    ∀ fuel i e0, T + 1 ≤ fuel + e0 → ∀ k itr,
      (pollAux I T f d fuel i e0).iters[k]? = some itr →
      itr.outcome = f (i + k) ∧
      itr.events = eventsOf (f (i + k)) ∧
      itr.startElapsed < T ∧
      (oSuccess (f (i + k)) = false →
        itr.startElapsed + d (i + k) + I < T →
        ((pollAux I T f d fuel i e0).iters[k + 1]?).isSome = true) := by
  intro fuel
  induction fuel with
  | zero =>
    intro i e0 hinv k itr hk
    rw [pollAux] at hk
    simp at hk
  | succ n ih =>
    intro i e0 hinv k itr hk
    by_cases he : e0 < T
    · cases hf : f i with
      | ok data =>
        by_cases hc : jsComplete data
        · rw [pollAux_step_complete I T f d n i e0 data he hf hc] at hk ⊢
          match k with
          | 0 =>
            simp only [List.getElem?_cons_zero, Option.some.injEq] at hk
            subst hk
            refine ⟨by rw [Nat.add_zero, hf], by rw [Nat.add_zero, hf], he, ?_⟩
            intro hns
            rw [Nat.add_zero, hf, oSuccess, hc] at hns
            exact absurd hns (by simp)
          | k'+1 =>
            simp at hk
        · have hc2 : jsComplete data = false := by simpa using hc
          rw [pollAux_step_pending I T f d n i e0 data he hf hc2] at hk ⊢
          have hinv2 : T + 1 ≤ n + (e0 + d i + I) := by omega
          match k with
          | 0 =>
            simp only [consIter, List.getElem?_cons_zero, Option.some.injEq] at hk
            subst hk
            refine ⟨by rw [Nat.add_zero, hf], by rw [Nat.add_zero, hf], he, ?_⟩
            intro _ hcont
            simp only [Nat.add_zero] at hcont
            simp only [consIter, List.getElem?_cons_succ]
            have hn1 : 1 ≤ n := by omega
            exact pollAux_nonempty I T f d n (i+1) (e0 + d i + I) hn1 hcont
          | k'+1 =>
            simp only [consIter, List.getElem?_cons_succ] at hk
            have hrec := ih (i+1) (e0 + d i + I) hinv2 k' itr hk
            have hidx : i + 1 + k' = i + (k' + 1) := by omega
            rw [hidx] at hrec
            refine ⟨hrec.1, hrec.2.1, hrec.2.2.1, ?_⟩
            intro hns hcont
            simp only [consIter, List.getElem?_cons_succ]
            exact hrec.2.2.2 hns hcont
      | error e =>
        rw [pollAux_step_error I T f d n i e0 e he hf] at hk ⊢
        have hinv2 : T + 1 ≤ n + (e0 + d i + I) := by omega
        match k with
        | 0 =>
          simp only [consIter, List.getElem?_cons_zero, Option.some.injEq] at hk
          subst hk
          refine ⟨by rw [Nat.add_zero, hf], by rw [Nat.add_zero, hf], he, ?_⟩
          intro _ hcont
          simp only [Nat.add_zero] at hcont
          simp only [consIter, List.getElem?_cons_succ]
          have hn1 : 1 ≤ n := by omega
          exact pollAux_nonempty I T f d n (i+1) (e0 + d i + I) hn1 hcont
        | k'+1 =>
          simp only [consIter, List.getElem?_cons_succ] at hk
          have hrec := ih (i+1) (e0 + d i + I) hinv2 k' itr hk
          have hidx : i + 1 + k' = i + (k' + 1) := by omega
          rw [hidx] at hrec
          refine ⟨hrec.1, hrec.2.1, hrec.2.2.1, ?_⟩
          intro hns hcont
          simp only [consIter, List.getElem?_cons_succ]
          exact hrec.2.2.2 hns hcont
    · rw [pollAux_step_stop I T f d n i e0 he] at hk
      simp at hk

lemma pollAux_timedOut_elapsed (I T : Nat) (f : Nat → FetchOutcome)
    (d : Nat → Nat) (hI : 1 ≤ I) :
    ∀ fuel i e0, T + 1 ≤ fuel + e0 →
      (pollAux I T f d fuel i e0).exit = .timedOut →
      T ≤ (pollAux I T f d fuel i e0).finalElapsed := by
  intro fuel
  induction fuel with
  | zero =>
    intro i e0 hinv _
    rw [pollAux]
    simp only
    omega
  | succ n ih =>
    intro i e0 hinv h
    by_cases he : e0 < T
    · cases hf : f i with
      | ok data =>
        by_cases hc : jsComplete data
        · rw [pollAux_step_complete I T f d n i e0 data he hf hc] at h
          exact absurd h (by simp)
        · have hc2 : jsComplete data = false := by simpa using hc
          rw [pollAux_step_pending I T f d n i e0 data he hf hc2] at h ⊢
          exact ih (i+1) (e0 + d i + I) (by omega) h
      | error e =>
        rw [pollAux_step_error I T f d n i e0 e he hf] at h ⊢
        exact ih (i+1) (e0 + d i + I) (by omega) h
    · rw [pollAux_step_stop I T f d n i e0 he]
      simp only
      omega

lemma one_le_ceilDivNat (a b : Nat) (hb : 1 ≤ b) (ha : 1 ≤ a) :
    1 ≤ ceilDivNat a b := by
  rw [ceilDivNat, Nat.le_div_iff_mul_le (by omega)]
  omega

lemma ceilDivNat_succ_le (a b I : Nat) (hI : 1 ≤ I) (ha : 1 ≤ a)
    (hb : b ≤ a - I) : ceilDivNat b I + 1 ≤ ceilDivNat a I := by
  by_cases hcase : a ≤ I
  · have hb0 : b = 0 := by omega
    subst hb0
    have h1 : ceilDivNat 0 I = 0 := by
      rw [ceilDivNat]
      exact Nat.div_eq_of_lt (by omega)
    rw [h1]
    exact one_le_ceilDivNat a I hI ha
  · have h1 : ceilDivNat b I ≤ ceilDivNat (a - I) I :=
      Nat.div_le_div_right (by omega)
    have h2 : ceilDivNat (a - I) I + 1 = ceilDivNat a I := by
      rw [ceilDivNat, ceilDivNat]
      have h3 : a - I + I - 1 = a - 1 := by omega
      have h4 : a + I - 1 = (a - 1) + I := by omega
      rw [h3, h4, Nat.add_div_right _ (by omega)]
    omega

lemma pollAux_length_le (I T : Nat) (f : Nat → FetchOutcome) (d : Nat → Nat)
    (hI : 1 ≤ I) :
    ∀ fuel i e0,
      (pollAux I T f d fuel i e0).iters.length ≤ ceilDivNat (T - e0) I := by
  intro fuel
  induction fuel with
  | zero =>
    intro i e0
    rw [pollAux]
    exact Nat.zero_le _
  | succ n ih =>
    intro i e0
    by_cases he : e0 < T
    · have hone : 1 ≤ ceilDivNat (T - e0) I :=
        one_le_ceilDivNat (T - e0) I hI (by omega)
      cases hf : f i with
      | ok data =>
        by_cases hc : jsComplete data
        · rw [pollAux_step_complete I T f d n i e0 data he hf hc]
          simpa using hone
        · have hc2 : jsComplete data = false := by simpa using hc
          rw [pollAux_step_pending I T f d n i e0 data he hf hc2]
          simp only [consIter, List.length_cons]
          have hrec := ih (i+1) (e0 + d i + I)
          have hstep := ceilDivNat_succ_le (T - e0) (T - (e0 + d i + I)) I hI
            (by omega) (by omega)
          omega
      | error e =>
        rw [pollAux_step_error I T f d n i e0 e he hf]
        simp only [consIter, List.length_cons]
        have hrec := ih (i+1) (e0 + d i + I)
        have hstep := ceilDivNat_succ_le (T - e0) (T - (e0 + d i + I)) I hI
          (by omega) (by omega)
        omega
    · rw [pollAux_step_stop I T f d n i e0 he]
      exact Nat.zero_le _

/-! ## Claims C1, C4, C5, C6 -/

lemma pollServerResponse_def (oI oT : Option Nat) (f : Nat → FetchOutcome)
    (d : Nat → Nat) :
    pollServerResponse oI oT f d =
      pollAux (jsOrNat oI DEFAULT_POLL_INTERVAL_MS)
        (jsOrNat oT DEFAULT_POLL_TIMEOUT_MS) f d
        (jsOrNat oT DEFAULT_POLL_TIMEOUT_MS + 1) 0 0 := rfl

/-- Claim C1 (amended): the poll loop returns a response as the successful
outcome exactly when its `procent` field holds a value of JS number type —
NaN and the infinities included, so finiteness is not checked — and such a
response is returned immediately by the iteration that fetched it; the
`percent` spelling is not recognized, and a response without a
number-typed `procent` is treated as pending regardless of any status
string.  (Original claim: either spelling, and only finite values.) -/
theorem claim1_completion_is_procent_number (I T : Nat)
    (f : Nat → FetchOutcome) (d : Nat → Nat) (fuel i e0 : Nat)
    (data r : Resp) (o : RespObj) (he : e0 < T) (hf : f i = .ok data)
    (hc : jsComplete data = true) :
    ((pollAux I T f d fuel i e0).exit = .success r → jsComplete r = true) ∧
    pollAux I T f d (fuel + 1) i e0 =
      ⟨.success data, [⟨e0, .ok data, eventsOf (.ok data)⟩], e0⟩ ∧
    (jsComplete (.obj o) = true ↔ ∃ n, o.procent = some (.num n)) := by
  refine ⟨pollAux_success_complete I T f d fuel i e0 r,
    pollAux_step_complete I T f d fuel i e0 data he hf hc, ?_⟩
  rw [jsComplete]
  match ho : o.procent with
  | some (.num n) => simp
  | some (.str s) => simp
  | some (.boolv b) => simp
  | some .nullv => simp
  | none => simp

/-- Witness for C1 at the completed response `{procent: 87}` in a poll
with interval 10 ms and timeout 50 ms. -/
theorem claim1_witness :
    ((pollAux 10 50 (fun _ => FetchOutcome.ok procentIntResp) (fun _ => 0)
        0 0 0).exit = .success Resp.nullish →
      jsComplete Resp.nullish = true) ∧
    pollAux 10 50 (fun _ => FetchOutcome.ok procentIntResp) (fun _ => 0)
        (0 + 1) 0 0 =
      ⟨.success procentIntResp,
        [⟨0, .ok procentIntResp, eventsOf (.ok procentIntResp)⟩], 0⟩ ∧
    (jsComplete (.obj procentIntObj) = true ↔
      ∃ n, procentIntObj.procent = some (.num n)) :=
  claim1_completion_is_procent_number 10 50
    (fun _ => FetchOutcome.ok procentIntResp) (fun _ => 0) 0 0 0
    procentIntResp Resp.nullish procentIntObj (by decide) rfl (by decide)

/-- Counterexample to C1 as stated: the response `{percent: 87}` carries a
finite numeric terminal field under the `percent` spelling, which the
claim requires to be recognized, yet the loop treats it as pending and
times out instead of returning it as the successful outcome; and the
non-finite `{procent: NaN}` is returned as complete even though the claim
requires finiteness. -/
theorem claim1_counterexample :
    specTerminal percentOnlyResp = true ∧
    jsComplete percentOnlyResp = false ∧
    (pollServerResponse (some 10) (some 5)
      (fun _ => FetchOutcome.ok percentOnlyResp) (fun _ => 0)).exit =
      .timedOut ∧
    specTerminal procentNaNResp = false ∧
    jsComplete procentNaNResp = true := by
  refine ⟨by decide, by decide, by decide, by decide, by decide⟩

/-- Claim C4: an error thrown by a fetch attempt in any reached iteration
is reported through `onError` with that very error, and the loop goes on
to a further iteration whenever the post-sleep clock is still under the
timeout; the loop's successful exit only ever carries a complete
response, and the timeout exit occurs only once the elapsed time has
reached the timeout. -/
theorem claim4_errors_nonfatal_timeout_sole_failure (oI oT : Option Nat)
    (f : Nat → FetchOutcome) (d : Nat → Nat) (k : Nat) (itr : IterRecord)
    (e : String)
    (hk : (pollServerResponse oI oT f d).iters[k]? = some itr)
    (he : itr.outcome = .error e) :
    itr.events = [.error e] ∧
    (itr.startElapsed + d k + jsOrNat oI DEFAULT_POLL_INTERVAL_MS <
        jsOrNat oT DEFAULT_POLL_TIMEOUT_MS →
      ((pollServerResponse oI oT f d).iters[k + 1]?).isSome = true) ∧
    (∀ r, (pollServerResponse oI oT f d).exit = .success r →
      jsComplete r = true) ∧
    ((pollServerResponse oI oT f d).exit = .timedOut →
      jsOrNat oT DEFAULT_POLL_TIMEOUT_MS ≤
        (pollServerResponse oI oT f d).finalElapsed) := by
  have hI : 1 ≤ jsOrNat oI DEFAULT_POLL_INTERVAL_MS :=
    jsOrNat_pos oI DEFAULT_POLL_INTERVAL_MS (by decide)
  rw [pollServerResponse_def] at hk ⊢
  have hrec := pollAux_records (jsOrNat oI DEFAULT_POLL_INTERVAL_MS)
    (jsOrNat oT DEFAULT_POLL_TIMEOUT_MS) f d hI
    (jsOrNat oT DEFAULT_POLL_TIMEOUT_MS + 1) 0 0 (by omega) k itr hk
  rw [Nat.zero_add] at hrec
  have hfk : f k = .error e := by rw [← hrec.1, he]
  refine ⟨?_, ?_, ?_, ?_⟩
  · rw [hrec.2.1, hfk]
    rfl
  · intro hcont
    exact hrec.2.2.2 (by rw [hfk]; rfl) hcont
  · intro r h
    exact pollAux_success_complete _ _ f d _ 0 0 r h
  · exact pollAux_timedOut_elapsed _ _ f d hI _ 0 0 (by omega)

/-- Witness for C4 at a fetcher that always throws, with interval 10 ms
and timeout 50 ms. -/
theorem claim4_witness :
    (⟨0, .error "boom", [PollEvent.error "boom"]⟩ : IterRecord).events =
      [PollEvent.error "boom"] ∧
    ((⟨0, .error "boom", [PollEvent.error "boom"]⟩ : IterRecord).startElapsed
        + 0 + jsOrNat (some 10) DEFAULT_POLL_INTERVAL_MS <
        jsOrNat (some 50) DEFAULT_POLL_TIMEOUT_MS →
      ((pollServerResponse (some 10) (some 50)
        (fun _ => FetchOutcome.error "boom")
        (fun _ => 0)).iters[0 + 1]?).isSome = true) ∧
    (∀ r, (pollServerResponse (some 10) (some 50)
        (fun _ => FetchOutcome.error "boom") (fun _ => 0)).exit =
        .success r → jsComplete r = true) ∧
    ((pollServerResponse (some 10) (some 50)
        (fun _ => FetchOutcome.error "boom") (fun _ => 0)).exit =
        .timedOut →
      jsOrNat (some 50) DEFAULT_POLL_TIMEOUT_MS ≤
        (pollServerResponse (some 10) (some 50)
          (fun _ => FetchOutcome.error "boom") (fun _ => 0)).finalElapsed) :=
  claim4_errors_nonfatal_timeout_sole_failure (some 10) (some 50)
    (fun _ => FetchOutcome.error "boom") (fun _ => 0) 0
    ⟨0, .error "boom", [PollEvent.error "boom"]⟩ "boom" (by decide) rfl

/-- Claim C5 (amended): an iteration whose fetch succeeds with a response
lacking a number-typed `procent` invokes `onPending` exactly once when
the response has no explicit "pending" marker, but exactly twice when it
does (the marker branch fires `onPending` and the implicit-pending fall
through fires it again); in both cases the loop continues whenever the
post-sleep clock is still under the timeout.  (Original claim: exactly
once in both cases.) -/
theorem claim5_pending_once_or_twice (oI oT : Option Nat)
    (f : Nat → FetchOutcome) (d : Nat → Nat) (k : Nat) (itr : IterRecord)
    (r : Resp)
    (hk : (pollServerResponse oI oT f d).iters[k]? = some itr)
    (ho : itr.outcome = .ok r) (hnc : jsComplete r = false) :
    itr.events = (if explicitPending r then
      [PollEvent.pending, PollEvent.pending] else [PollEvent.pending]) ∧
    pendingEvents itr.events = (if explicitPending r then 2 else 1) ∧
    (itr.startElapsed + d k + jsOrNat oI DEFAULT_POLL_INTERVAL_MS <
        jsOrNat oT DEFAULT_POLL_TIMEOUT_MS →
      ((pollServerResponse oI oT f d).iters[k + 1]?).isSome = true) := by
  have hI : 1 ≤ jsOrNat oI DEFAULT_POLL_INTERVAL_MS :=
    jsOrNat_pos oI DEFAULT_POLL_INTERVAL_MS (by decide)
  rw [pollServerResponse_def] at hk ⊢
  have hrec := pollAux_records (jsOrNat oI DEFAULT_POLL_INTERVAL_MS)
    (jsOrNat oT DEFAULT_POLL_TIMEOUT_MS) f d hI
    (jsOrNat oT DEFAULT_POLL_TIMEOUT_MS + 1) 0 0 (by omega) k itr hk
  rw [Nat.zero_add] at hrec
  have hfk : f k = .ok r := by rw [← hrec.1, ho]
  have hev : itr.events = (if explicitPending r then
      [PollEvent.pending, PollEvent.pending] else [PollEvent.pending]) := by
    rw [hrec.2.1, hfk, eventsOf, hnc]
    by_cases hp : explicitPending r
    · simp [hp]
    · simp [hp]
  refine ⟨hev, ?_, ?_⟩
  · rw [hev]
    by_cases hp : explicitPending r
    · simp only [if_pos hp]
      rfl
    · simp only [if_neg hp]
      rfl
  · intro hcont
    refine hrec.2.2.2 ?_ hcont
    rw [hfk, oSuccess, hnc]

/-- Witness for C5 at an always-implicitly-pending fetcher (a response
with neither a pending marker nor a terminal field), with interval 10 ms
and timeout 50 ms. -/
theorem claim5_witness :
    (⟨0, .ok (Resp.obj {}), [PollEvent.pending]⟩ : IterRecord).events =
      (if explicitPending (Resp.obj {}) then
        [PollEvent.pending, PollEvent.pending] else [PollEvent.pending]) ∧
    pendingEvents
        (⟨0, .ok (Resp.obj {}), [PollEvent.pending]⟩ : IterRecord).events =
      (if explicitPending (Resp.obj {}) then 2 else 1) ∧
    ((⟨0, .ok (Resp.obj {}), [PollEvent.pending]⟩ : IterRecord).startElapsed
        + 0 + jsOrNat (some 10) DEFAULT_POLL_INTERVAL_MS <
        jsOrNat (some 50) DEFAULT_POLL_TIMEOUT_MS →
      ((pollServerResponse (some 10) (some 50)
        (fun _ => FetchOutcome.ok (Resp.obj {}))
        (fun _ => 0)).iters[0 + 1]?).isSome = true) :=
  claim5_pending_once_or_twice (some 10) (some 50)
    (fun _ => FetchOutcome.ok (Resp.obj {})) (fun _ => 0) 0
    ⟨0, .ok (Resp.obj {}), [PollEvent.pending]⟩ (Resp.obj {})
    (by decide) rfl (by decide)

/-- Counterexample to C5 as stated: with the explicitly pending response
`{status: "pending"}`, the single iteration that runs before the 5 ms
timeout invokes `onPending` twice, not exactly once. -/
theorem claim5_counterexample :
    (pollServerResponse (some 10) (some 5)
      (fun _ => FetchOutcome.ok pendingOnlyResp) (fun _ => 0)).iters =
      [⟨0, .ok pendingOnlyResp, [PollEvent.pending, PollEvent.pending]⟩] ∧
    pendingEvents [PollEvent.pending, PollEvent.pending] = 2 := by
  refine ⟨by decide, by decide⟩

/-- Claim C6: the number of fetch attempts a poll run makes before timing
out is at most `ceil(timeout / interval) + 1`; and in the concrete
scenario with interval 10 ms, timeout 50 ms and an always-pending
fetcher, the loop fires `onPending` at least 4 times and then exits by
the polling timeout. -/
theorem claim6_attempt_bound_and_scenario :
    (∀ (oI oT : Option Nat) (f : Nat → FetchOutcome) (d : Nat → Nat),
      (pollServerResponse oI oT f d).iters.length ≤
        ceilDivNat (jsOrNat oT DEFAULT_POLL_TIMEOUT_MS)
          (jsOrNat oI DEFAULT_POLL_INTERVAL_MS) + 1) ∧
    (pollServerResponse (some 10) (some 50)
      (fun _ => FetchOutcome.ok pendingOnlyResp) (fun _ => 0)).exit =
      .timedOut ∧
    4 ≤ pendingTotal (pollServerResponse (some 10) (some 50)
      (fun _ => FetchOutcome.ok pendingOnlyResp) (fun _ => 0)).iters ∧
    (pollServerResponse (some 10) (some 50)
      (fun _ => FetchOutcome.ok pendingOnlyResp)
      (fun _ => 0)).iters.length = 5 := by
  refine ⟨?_, by decide, by decide, by decide⟩
  intro oI oT f d
  have hI : 1 ≤ jsOrNat oI DEFAULT_POLL_INTERVAL_MS :=
    jsOrNat_pos oI DEFAULT_POLL_INTERVAL_MS (by decide)
  rw [pollServerResponse_def]
  have h := pollAux_length_le (jsOrNat oI DEFAULT_POLL_INTERVAL_MS)
    (jsOrNat oT DEFAULT_POLL_TIMEOUT_MS) f d hI
    (jsOrNat oT DEFAULT_POLL_TIMEOUT_MS + 1) 0 0
  rw [Nat.sub_zero] at h
  omega

/-! ## Claim C10 -/

lemma mockInfer_probability_eq (fd : MockFormData) :
    (mockInfer fd).probability =
      (jsRound ((3/10 + min (jsOrQ fd.snr 10 / 20) 1 * (3/10) +
        min (jsOrQ fd.transit_depth 5000 / 10000) 1 * (3/10)) * 1000) : ℚ)
        / 1000 := rfl

/-- Claim C10 (amended): whenever the parsed `snr` and `transit_depth`
values are nonnegative — in particular for missing, non-numeric or zero
fields, which fall back to the defaults 10 and 5000 — the local
estimator's probability lies in `[0.3, 0.9]` and `validateResponse`
accepts its output; a negative parsed field, however, can drive the
probability below 0 (original claim: every input mapping).  The summary
and comments are a string and a string list by construction. -/
theorem claim10_mockInfer_valid_of_nonneg (fd : MockFormData)
    (hs : 0 ≤ jsOrQ fd.snr 10) (ht : 0 ≤ jsOrQ fd.transit_depth 5000) :
    3/10 ≤ (mockInfer fd).probability ∧
    (mockInfer fd).probability ≤ 9/10 ∧
    validateResponse (mockInfer fd) = true := by
  have ha0 : (0 : ℚ) ≤ min (jsOrQ fd.snr 10 / 20) 1 :=
    le_min (by positivity) zero_le_one
  have ha1 : min (jsOrQ fd.snr 10 / 20) 1 ≤ 1 := min_le_right _ _
  have hb0 : (0 : ℚ) ≤ min (jsOrQ fd.transit_depth 5000 / 10000) 1 :=
    le_min (by positivity) zero_le_one
  have hb1 : min (jsOrQ fd.transit_depth 5000 / 10000) 1 ≤ 1 :=
    min_le_right _ _
  set a := min (jsOrQ fd.snr 10 / 20) 1 with ha
  set b := min (jsOrQ fd.transit_depth 5000 / 10000) 1 with hb
  have hbase0 : (3/10 : ℚ) ≤ 3/10 + a * (3/10) + b * (3/10) := by nlinarith
  have hbase1 : (3/10 : ℚ) + a * (3/10) + b * (3/10) ≤ 9/10 := by nlinarith
  have hfl0 : (300 : ℤ) ≤ jsRound ((3/10 + a * (3/10) + b * (3/10)) * 1000) := by
    rw [jsRound]
    refine Int.le_floor.mpr ?_
    push_cast
    linarith
  have hfl1 : jsRound ((3/10 + a * (3/10) + b * (3/10)) * 1000) ≤ 900 := by
    rw [jsRound]
    have h9 : (⌊(3/10 + a * (3/10) + b * (3/10)) * 1000 + 1/2⌋ : ℤ) < 901 := by
      refine Int.floor_lt.mpr ?_
      push_cast
      linarith
    omega
  have hp := mockInfer_probability_eq fd
  rw [← ha, ← hb] at hp
  have hc0 : (300 : ℚ) ≤
      (jsRound ((3/10 + a * (3/10) + b * (3/10)) * 1000) : ℚ) := by
    exact_mod_cast hfl0
  have hc1 : ((jsRound ((3/10 + a * (3/10) + b * (3/10)) * 1000) : ℚ)) ≤
      900 := by
    exact_mod_cast hfl1
  refine ⟨by rw [hp]; linarith, by rw [hp]; linarith, ?_⟩
  have h0 : (0 : ℚ) ≤ (mockInfer fd).probability := by rw [hp]; linarith
  have h1 : (mockInfer fd).probability ≤ 1 := by rw [hp]; linarith
  simp only [validateResponse, Bool.and_eq_true, decide_eq_true_eq]
  exact ⟨h0, h1⟩

/-- Witness for C10 at a mapping with missing `snr` and `transit_depth`
(both parse to NaN, so the defaults apply and the probability is 0.6). -/
theorem claim10_witness :
    3/10 ≤ (mockInfer {}).probability ∧
    (mockInfer {}).probability ≤ 9/10 ∧
    validateResponse (mockInfer {}) = true :=
  claim10_mockInfer_valid_of_nonneg {} (by decide) (by decide)

/-- Counterexample to C10 as stated: a submitted `snr` string parsing to
-1000 (with `transit_depth` 5000) makes `mockInfer` return probability
-14.55, far below the claimed interval `[0.3, 0.9]`, and
`validateResponse` rejects that output. -/
theorem claim10_counterexample :
    (mockInfer negSnrInput).probability = -291/20 ∧
    validateResponse (mockInfer negSnrInput) = false := by
  have hp : (mockInfer negSnrInput).probability =
      (jsRound ((3/10 + min ((-1000 : ℚ)/20) 1 * (3/10) +
        min ((5000 : ℚ)/10000) 1 * (3/10)) * 1000) : ℚ) / 1000 :=
    mockInfer_probability_eq negSnrInput
  have hval : (mockInfer negSnrInput).probability = -291/20 := by
    rw [hp, jsRound]
    rw [min_eq_left (by norm_num), min_eq_left (by norm_num)]
    norm_num
  refine ⟨hval, ?_⟩
  have hneg : ¬ (0 : ℚ) ≤ (mockInfer negSnrInput).probability := by
    rw [hval]
    norm_num
  simp [validateResponse, hneg]

end ExoPoll
